import Mathlib

/-!
Shallow embedding of the Cloudflare-DDNS record reconciliation engine
(src/main.py) and proofs about it.

The Python module's globals `public_ip` and `api` become explicit
parameters; provider HTTP calls become events in a trace, and the list of
provider records of the queried type (the body of the GET response that
`check_record` filters) becomes an input list.
-/

/-- Structured `data` of an SRV record / SRV payload (main.py lines 116-124). -/
structure SrvData where
  name : String
  service : String
  proto : String
  priority : Nat
  weight : Nat
  port : Nat
  target : String
deriving DecidableEq, Repr

/-- A provider-side DNS record as returned by the dns_records listing.
Python represents records as dicts; Address records carry a scalar
`content`, `ttl` and `proxied`, SRV records carry structured `data`.
A single structure with all fields models the heterogeneous dict. -/
structure ProviderRecord where
  id : String
  name : String
  content : String
  ttl : Nat
  proxied : Bool
  data : Option SrvData
deriving DecidableEq, Repr

/-- The payload dict built by handle_http_record (main.py lines 89-95):
exactly the keys type, name, proxied, ttl, content. -/
structure APayload where
  type : String
  name : String
  proxied : Bool
  ttl : Nat
  content : String
deriving DecidableEq, Repr

/-- The payload dict built by handle_srv_record (main.py lines 114-125):
exactly the keys type and data. -/
structure SrvPayload where
  type : String
  data : SrvData
deriving DecidableEq, Repr

/-- The reconciliation outcome for one record of payload type p:
skip, POST a new record, or PUT to an existing record id. -/
inductive ReconcileAction (p : Type) where
  | noop
  | create (payload : p)
  | update (recordId : String) (payload : p)
deriving DecidableEq, Repr

/-- One provider API call made while handling a record. -/
inductive ProviderCall where
  | read (recType : String) (name : String)
  | createRecord (recType : String)
  | updateRecord (recType : String) (recordId : String)
deriving DecidableEq, Repr

/-- Python's str.endswith, used by check_record's SRV branch: a suffix
test on the character sequence of the string. -/
def endswith (s : String) (post : String) : Bool :=
  post.data.isSuffixOf s.data

/-- CloudflareAPI.check_record (main.py lines 71-79): filter the listed
records of the queried type — suffix match for SRV, exact match otherwise —
and return the first match, or none when the filtered list is empty. -/
def check_record (records : List ProviderRecord) (name : String)
    (type : String) : Option ProviderRecord :=
  let record :=
    if type = "SRV" then
      records.filter (fun rec => endswith rec.name name)
    else
      records.filter (fun rec => rec.name = name)
  record.head?

/-- handle_http_record (main.py lines 88-105): build the "A" payload,
look the record up by the derived name, then create / skip / update.
Returns the chosen action together with the trace of provider calls. -/
def handle_http_record (domain_name : String) (name : String) (ttl : Nat)
    (proxied : Bool) (public_ip : String)
    (a_records : List ProviderRecord) :
    ReconcileAction APayload × List ProviderCall :=
  let to_send : APayload :=
    { type := "A"
      name := if name = "@" ∨ name = "" then domain_name
              else name ++ "." ++ domain_name
      proxied := proxied
      ttl := ttl
      content := public_ip }
  match check_record a_records to_send.name "A" with
  | none =>
      (ReconcileAction.create to_send,
       [ProviderCall.read "A" to_send.name, ProviderCall.createRecord "A"])
  | some record =>
      if record.content = public_ip ∧ record.ttl = ttl ∧
          record.proxied = proxied then
        (ReconcileAction.noop, [ProviderCall.read "A" to_send.name])
      else
        (ReconcileAction.update record.id to_send,
         [ProviderCall.read "A" to_send.name,
          ProviderCall.updateRecord "A" record.id])

/-- Python's str.lower, used on the configured proto: lower-case every
character of the string. -/
def lower (s : String) : String :=
  ⟨s.data.map Char.toLower⟩

/-- The service-specific configuration fields handle_srv_record reads from
its record_data dict (main.py lines 112-122). -/
structure SrvInput where
  service : String
  proto : String
  priority : Nat
  weight : Nat
  port : Nat
deriving DecidableEq, Repr

/-- handle_srv_record (main.py lines 108-135): first run the full Address
reconciliation for the same name/ttl/proxied, then build the SRV payload,
look the SRV record up by suffix match, and create / skip / update it.
Returns both actions and the combined call trace. -/
def handle_srv_record (domain_name : String) (name : String) (ttl : Nat)
    (proxied : Bool) (record_data : SrvInput) (public_ip : String)
    (a_records : List ProviderRecord) (srv_records : List ProviderRecord) :
    (ReconcileAction APayload × ReconcileAction SrvPayload) × List ProviderCall :=
  let http := handle_http_record domain_name name ttl proxied public_ip
      a_records
  let name2 := if name = "@" ∨ name = "" then domain_name
               else name ++ "." ++ domain_name
  let proto := "_" ++ lower record_data.proto
  let to_send : SrvPayload :=
    { type := "SRV"
      data :=
        { name := name2
          service := record_data.service
          proto := proto
          priority := record_data.priority
          weight := record_data.weight
          port := record_data.port
          target := name2 } }
  match check_record srv_records name2 "SRV" with
  | none =>
      ((http.1, ReconcileAction.create to_send),
       http.2 ++ [ProviderCall.read "SRV" name2,
                  ProviderCall.createRecord "SRV"])
  | some record =>
      if record.data = some to_send.data then
        ((http.1, ReconcileAction.noop), http.2 ++ [ProviderCall.read "SRV" name2])
      else
        ((http.1, ReconcileAction.update record.id to_send),
         http.2 ++ [ProviderCall.read "SRV" name2,
                    ProviderCall.updateRecord "SRV" record.id])

/-- The effective DNS name rule shared by both handlers
(main.py lines 91 and 111). -/
def effectiveName (name : String) (domain_name : String) : String :=
  if name = "@" ∨ name = "" then domain_name else name ++ "." ++ domain_name

/-- The authentication section of the configuration. `none` models an
absent key; `authentication.get(k, default)` becomes `Option.getD`. -/
structure AuthConfig where
  use_token : Option Bool
  email : Option String
  api_auth : Option String
deriving DecidableEq, Repr

/-- The fields CloudflareAPI.__init__ stores on the client
(main.py lines 38-40). -/
structure ApiState where
  is_token_authorized : Bool
  email : String
  api_auth : String
deriving DecidableEq, Repr

/-- The AuthenticationConfigError raised by __init__ (main.py lines 24-26, 43). -/
inductive AuthenticationConfigError where
  | mk (message : String)
deriving DecidableEq, Repr

/-- CloudflareAPI.__init__ (main.py lines 37-43): read the configuration
with Python truthiness defaults, then fail when api-auth is falsy or when
token mode is on and email is falsy. -/
def cloudflare_init (authentication : AuthConfig) :
    Except AuthenticationConfigError ApiState :=
  let is_token_authorized := authentication.use_token.getD false
  let email := authentication.email.getD ""
  let api_auth := authentication.api_auth.getD ""
  if api_auth = "" ∨ (is_token_authorized ∧ email = "") then
    Except.error (AuthenticationConfigError.mk
      "Please check your authentication configuration and correct it!")
  else
    Except.ok
      { is_token_authorized := is_token_authorized, email := email,
        api_auth := api_auth }

/-- CloudflareAPI.getAuthHeaders (main.py lines 45-55) as an association
list: the auth entries of the merged header dict, followed by the extra
headers spread in by the dict merge. -/
def getAuthHeaders (s : ApiState) (headers : List (String × String)) :
    List (String × String) :=
  if s.is_token_authorized then
    ("Authorization", "Bearer " ++ s.api_auth) :: headers
  else
    ("X-Auth-Email", s.email) :: ("X-Auth-Key", s.api_auth) :: headers

/-- A record entry of the configuration, as read by update_record
(main.py lines 144-148): optional keys are Options, the service fields
are those handle_srv_record reads. -/
structure RecordConfig where
  name : String
  ttl : Option Nat
  type : Option String
  proxied : Option Bool
  service : String
  proto : String
  priority : Nat
  weight : Nat
  port : Nat
deriving DecidableEq, Repr

/-- The error update_record ends in when the record's type tag is unusable:
Python raises RuntimeError("Record type is not supported") for a falsy type
(main.py line 151) and KeyError from the HANDLES dict lookup for an
unregistered one (main.py line 154); both are modelled by this type, which
carries the Python exception rendering. -/
inductive UnsupportedRecordType where
  | runtimeError (message : String)
  | keyError (key : String)
deriving DecidableEq, Repr

/-- The keys of the HANDLES dispatch dict (main.py lines 138-141). -/
def HANDLES_keys : List String := ["A", "SRV"]

/-- update_record (main.py lines 144-154): read name/ttl/type/proxied with
their defaults, fail on a falsy type tag, dispatch through HANDLES (an
unregistered tag fails the dict lookup), and otherwise run the handler.
Returns the actions (the SRV component only for an SRV record) and the
trace of provider calls; an error carries the empty trace since it is
raised before any handler runs. -/
def update_record (domain_name : String) (record : RecordConfig)
    (public_ip : String) (a_records : List ProviderRecord)
    (srv_records : List ProviderRecord) :
    Except UnsupportedRecordType
      ((ReconcileAction APayload × Option (ReconcileAction SrvPayload)) ×
        List ProviderCall) :=
  let name := record.name
  let ttl := record.ttl.getD 1
  let record_type := record.type
  let proxied := if record_type = some "SRV" then record.proxied.getD false
                 else record.proxied.getD true
  if record_type.getD "" = "" then
    Except.error (UnsupportedRecordType.runtimeError
      "Record type is not supported")
  else if record_type.getD "" = "A" then
    let r := handle_http_record domain_name name ttl proxied public_ip
        a_records
    Except.ok ((r.1, none), r.2)
  else if record_type.getD "" = "SRV" then
    let r := handle_srv_record domain_name name ttl proxied
        { service := record.service, proto := record.proto,
          priority := record.priority, weight := record.weight,
          port := record.port } public_ip a_records srv_records
    Except.ok ((r.1.1, some r.1.2), r.2)
  else
    Except.error (UnsupportedRecordType.keyError (record_type.getD ""))

/-- The desired "A" payload of §4.2, named for the theorems. -/
def desiredAPayload (domain_name : String) (name : String) (ttl : Nat)
    (proxied : Bool) (public_ip : String) : APayload :=
  { type := "A", name := effectiveName name domain_name, proxied := proxied,
    ttl := ttl, content := public_ip }

/-- The desired SRV `data` of §4.3, named for the theorems. -/
def desiredSrvData (domain_name : String) (name : String)
    (record_data : SrvInput) : SrvData :=
  { name := effectiveName name domain_name
    service := record_data.service
    proto := "_" ++ lower record_data.proto
    priority := record_data.priority
    weight := record_data.weight
    port := record_data.port
    target := effectiveName name domain_name }

/-- Number of provider reads in a trace. -/
def countReads (trace : List ProviderCall) : Nat :=
  (trace.filter (fun c => match c with
    | ProviderCall.read _ _ => true
    | _ => false)).length

/-- Number of provider writes (creates or updates) in a trace. -/
def countWrites (trace : List ProviderCall) : Nat :=
  (trace.filter (fun c => match c with
    | ProviderCall.createRecord _ => true
    | ProviderCall.updateRecord _ _ => true
    | _ => false)).length

/-- Faithful storage of an Address action (the assumption of the
idempotence claim): NoOp leaves the looked-up record in place; Create
stores the payload's fields under a provider-chosen fresh id; Update
stores the payload's fields under the targeted id. -/
def faithfulStoreA (new_id : String) (found : Option ProviderRecord) :
    ReconcileAction APayload → Option ProviderRecord
  | ReconcileAction.noop => found
  | ReconcileAction.create p =>
      some { id := new_id, name := p.name, content := p.content,
             ttl := p.ttl, proxied := p.proxied, data := none }
  | ReconcileAction.update rid p =>
      some { id := rid, name := p.name, content := p.content,
             ttl := p.ttl, proxied := p.proxied, data := none }

/-- Faithful storage of an SRV action: NoOp leaves the looked-up record in
place; Create and Update store the payload's `data` under a provider-chosen
stored name (the SRV payload carries no top-level name; the provider
derives one such as `_service._proto.name`). The scalar content/ttl/proxied
fields of the stored row are irrelevant to SRV reconciliation. -/
def faithfulStoreSrv (stored_name : String) (new_id : String)
    (found : Option ProviderRecord) :
    ReconcileAction SrvPayload → Option ProviderRecord
  | ReconcileAction.noop => found
  | ReconcileAction.create p =>
      some { id := new_id, name := stored_name, content := "", ttl := 1,
             proxied := false, data := some p.data }
  | ReconcileAction.update rid p =>
      some { id := rid, name := stored_name, content := "", ttl := 1,
             proxied := false, data := some p.data }

/-- A concrete stale Address record, used by witness theorems. -/
def wwwStale : ProviderRecord :=
  { id := "rid", name := "www.example.com", content := "1.2.3.4",
    ttl := 1, proxied := true, data := none }

/-- A concrete SRV data value, used by witness theorems. -/
def svcData : SrvData :=
  { name := "svc.example.com", service := "_http", proto := "_tcp",
    priority := 1, weight := 5, port := 8080, target := "svc.example.com" }

/-- A concrete provider-side SRV record with the provider-prefixed stored
name, used by witness theorems. -/
def svcRecord : ProviderRecord :=
  { id := "sid", name := "_http._tcp.svc.example.com", content := "",
    ttl := 1, proxied := false, data := some svcData }

/-- A concrete service configuration with upper-case proto, used by
witness theorems. -/
def svcInput : SrvInput :=
  { service := "_http", proto := "TCP", priority := 1, weight := 5,
    port := 8080 }

theorem filter_head?_eq_find? {α : Type} (p : α → Bool) (l : List α) :
    (l.filter p).head? = l.find? p := by
  induction l with
  | nil => rfl
  | cons a t ih =>
      by_cases h : p a <;> simp [List.filter_cons, List.find?_cons, h, ih]

theorem check_record_srv_eq_find? (records : List ProviderRecord)
    (name : String) :
    check_record records name "SRV" =
      records.find? (fun rec => endswith rec.name name) := by
  simp [check_record, filter_head?_eq_find?]

theorem check_record_other_eq_find? (records : List ProviderRecord)
    (name : String) (type : String) (h : type ≠ "SRV") :
    check_record records name type =
      records.find? (fun rec => rec.name = name) := by
  simp [check_record, h, filter_head?_eq_find?]

theorem check_record_srv_some {records : List ProviderRecord} {name : String}
    {r : ProviderRecord} (h : check_record records name "SRV" = some r) :
    endswith r.name name = true := by
  rw [check_record_srv_eq_find?] at h
  simpa using List.find?_some h

theorem check_record_a_some {records : List ProviderRecord} {name : String}
    {r : ProviderRecord} (h : check_record records name "A" = some r) :
    r.name = name := by
  rw [check_record_other_eq_find? records name "A" (by decide)] at h
  simpa using List.find?_some h

theorem handle_http_record_action (d n : String) (ttl : Nat) (px : Bool)
    (ip : String) (aRecs : List ProviderRecord) :
    (handle_http_record d n ttl px ip aRecs).1 =
      match check_record aRecs (effectiveName n d) "A" with
      | none => ReconcileAction.create (desiredAPayload d n ttl px ip)
      | some r =>
          if r.content = ip ∧ r.ttl = ttl ∧ r.proxied = px then
            ReconcileAction.noop
          else ReconcileAction.update r.id (desiredAPayload d n ttl px ip) := by
  simp only [handle_http_record, effectiveName, desiredAPayload]
  cases check_record aRecs
      (if n = "@" ∨ n = "" then d else n ++ "." ++ d) "A" with
  | none => rfl
  | some r =>
      by_cases hc : r.content = ip ∧ r.ttl = ttl ∧ r.proxied = px <;>
        simp [hc]

theorem handle_http_record_trace (d n : String) (ttl : Nat) (px : Bool)
    (ip : String) (aRecs : List ProviderRecord) :
    (handle_http_record d n ttl px ip aRecs).2 =
      ProviderCall.read "A" (effectiveName n d) ::
        (match (handle_http_record d n ttl px ip aRecs).1 with
         | ReconcileAction.noop => []
         | ReconcileAction.create _ => [ProviderCall.createRecord "A"]
         | ReconcileAction.update rid _ =>
             [ProviderCall.updateRecord "A" rid]) := by
  simp only [handle_http_record, effectiveName]
  cases check_record aRecs
      (if n = "@" ∨ n = "" then d else n ++ "." ++ d) "A" with
  | none => rfl
  | some r =>
      by_cases hc : r.content = ip ∧ r.ttl = ttl ∧ r.proxied = px <;>
        simp [hc]

theorem handle_srv_record_eq (d n : String) (ttl : Nat) (px : Bool)
    (rd : SrvInput) (ip : String) (aRecs sRecs : List ProviderRecord) :
    handle_srv_record d n ttl px rd ip aRecs sRecs =
      (match check_record sRecs (effectiveName n d) "SRV" with
       | none =>
           (((handle_http_record d n ttl px ip aRecs).1,
             ReconcileAction.create
               { type := "SRV", data := desiredSrvData d n rd }),
            (handle_http_record d n ttl px ip aRecs).2 ++
              [ProviderCall.read "SRV" (effectiveName n d),
               ProviderCall.createRecord "SRV"])
       | some r =>
           if r.data = some (desiredSrvData d n rd) then
             (((handle_http_record d n ttl px ip aRecs).1,
               ReconcileAction.noop),
              (handle_http_record d n ttl px ip aRecs).2 ++
                [ProviderCall.read "SRV" (effectiveName n d)])
           else
             (((handle_http_record d n ttl px ip aRecs).1,
               ReconcileAction.update r.id
                 { type := "SRV", data := desiredSrvData d n rd }),
              (handle_http_record d n ttl px ip aRecs).2 ++
                [ProviderCall.read "SRV" (effectiveName n d),
                 ProviderCall.updateRecord "SRV" r.id])) := by
  simp only [handle_srv_record, effectiveName, desiredSrvData]

theorem countReads_append (l1 l2 : List ProviderCall) :
    countReads (l1 ++ l2) = countReads l1 + countReads l2 := by
  simp [countReads, List.filter_append]

theorem countWrites_append (l1 l2 : List ProviderCall) :
    countWrites (l1 ++ l2) = countWrites l1 + countWrites l2 := by
  simp [countWrites, List.filter_append]

theorem http_countReads (d n : String) (ttl : Nat) (px : Bool) (ip : String)
    (aRecs : List ProviderRecord) :
    countReads (handle_http_record d n ttl px ip aRecs).2 = 1 := by
  rw [handle_http_record_trace]
  rcases (handle_http_record d n ttl px ip aRecs).1 with _ | p | ⟨i, p⟩ <;>
    simp [countReads]

theorem http_countWrites (d n : String) (ttl : Nat) (px : Bool) (ip : String)
    (aRecs : List ProviderRecord) :
    countWrites (handle_http_record d n ttl px ip aRecs).2 ≤ 1 := by
  rw [handle_http_record_trace]
  rcases (handle_http_record d n ttl px ip aRecs).1 with _ | p | ⟨i, p⟩ <;>
    simp [countWrites]

theorem http_noop_countWrites (d n : String) (ttl : Nat) (px : Bool)
    (ip : String) (aRecs : List ProviderRecord)
    (h : (handle_http_record d n ttl px ip aRecs).1 = ReconcileAction.noop) :
    countWrites (handle_http_record d n ttl px ip aRecs).2 = 0 := by
  rw [handle_http_record_trace, h]
  simp [countWrites]

theorem srv_fst (d n : String) (ttl : Nat) (px : Bool) (rd : SrvInput)
    (ip : String) (aRecs sRecs : List ProviderRecord) :
    (handle_srv_record d n ttl px rd ip aRecs sRecs).1.1 =
      (handle_http_record d n ttl px ip aRecs).1 := by
  rw [handle_srv_record_eq]
  cases check_record sRecs (effectiveName n d) "SRV" with
  | none => rfl
  | some r =>
      by_cases hc : r.data = some (desiredSrvData d n rd) <;> simp [hc]

theorem http_second_run_noop (d n : String) (ttl : Nat) (px : Bool)
    (ip : String) (aRecs : List ProviderRecord) (new_id : String) :
    (handle_http_record d n ttl px ip
      ((faithfulStoreA new_id (check_record aRecs (effectiveName n d) "A")
        (handle_http_record d n ttl px ip aRecs).1).toList)).1 =
      ReconcileAction.noop := by
  simp only [handle_http_record_action]
  rcases hx : check_record aRecs (effectiveName n d) "A" with _ | r
  · simp [faithfulStoreA, check_record, desiredAPayload]
  · by_cases hc : r.content = ip ∧ r.ttl = ttl ∧ r.proxied = px
    · have hr : r.name = effectiveName n d := check_record_a_some hx
      simp [if_pos hc, faithfulStoreA, check_record, hr, hc]
    · simp [if_neg hc, faithfulStoreA, check_record, desiredAPayload]

theorem srv_snd (d n : String) (ttl : Nat) (px : Bool) (rd : SrvInput)
    (ip : String) (aRecs sRecs : List ProviderRecord) :
    (handle_srv_record d n ttl px rd ip aRecs sRecs).1.2 =
      (match check_record sRecs (effectiveName n d) "SRV" with
       | none =>
           ReconcileAction.create
             { type := "SRV", data := desiredSrvData d n rd }
       | some r =>
           if r.data = some (desiredSrvData d n rd) then ReconcileAction.noop
           else
             ReconcileAction.update r.id
               { type := "SRV", data := desiredSrvData d n rd }) := by
  rw [handle_srv_record_eq]
  cases check_record sRecs (effectiveName n d) "SRV" with
  | none => rfl
  | some r =>
      by_cases hc : r.data = some (desiredSrvData d n rd) <;> simp [hc]

theorem srv_second_run_noop (d n : String) (ttl : Nat) (px : Bool)
    (rd : SrvInput) (ip : String) (aRecs sRecs : List ProviderRecord)
    (new_idA new_idS stored_name : String)
    (h : endswith stored_name (effectiveName n d) = true) :
    (handle_srv_record d n ttl px rd ip
      ((faithfulStoreA new_idA (check_record aRecs (effectiveName n d) "A")
        (handle_srv_record d n ttl px rd ip aRecs sRecs).1.1).toList)
      ((faithfulStoreSrv stored_name new_idS
        (check_record sRecs (effectiveName n d) "SRV")
        (handle_srv_record d n ttl px rd ip aRecs sRecs).1.2).toList)).1.1 =
      ReconcileAction.noop ∧
    (handle_srv_record d n ttl px rd ip
      ((faithfulStoreA new_idA (check_record aRecs (effectiveName n d) "A")
        (handle_srv_record d n ttl px rd ip aRecs sRecs).1.1).toList)
      ((faithfulStoreSrv stored_name new_idS
        (check_record sRecs (effectiveName n d) "SRV")
        (handle_srv_record d n ttl px rd ip aRecs sRecs).1.2).toList)).1.2 =
      ReconcileAction.noop := by
  constructor
  · rw [srv_fst, srv_fst]
    exact http_second_run_noop d n ttl px ip aRecs new_idA
  · rw [srv_snd, srv_snd]
    rcases hs : check_record sRecs (effectiveName n d) "SRV" with _ | r
    · simp [faithfulStoreSrv, check_record, h]
    · by_cases hc : r.data = some (desiredSrvData d n rd)
      · have hr := check_record_srv_some hs
        simp [hc, faithfulStoreSrv, check_record, hr]
      · simp [hc, faithfulStoreSrv, check_record, h]

theorem srv_noop_countWrites (d n : String) (ttl : Nat) (px : Bool)
    (rd : SrvInput) (ip : String) (aRecs sRecs : List ProviderRecord)
    (h1 : (handle_srv_record d n ttl px rd ip aRecs sRecs).1.1 =
      ReconcileAction.noop)
    (h2 : (handle_srv_record d n ttl px rd ip aRecs sRecs).1.2 =
      ReconcileAction.noop) :
    countWrites (handle_srv_record d n ttl px rd ip aRecs sRecs).2 = 0 := by
  rw [srv_fst] at h1
  rw [srv_snd] at h2
  rw [handle_srv_record_eq]
  rcases hs : check_record sRecs (effectiveName n d) "SRV" with _ | r
  · rw [hs] at h2
    simp at h2
  · rw [hs] at h2
    by_cases hc : r.data = some (desiredSrvData d n rd)
    · have h0 := http_noop_countWrites d n ttl px ip aRecs h1
      dsimp only
      rw [if_pos hc, countWrites_append, h0]
      rfl
    · simp [hc] at h2

/-- C1: for every Address-record reconciliation with a non-empty current
public IP, the desired payload is {type: "A", name: effectiveName, proxied,
ttl, content: currentIP}; if the lookup of an "A" record by the effective
name finds nothing the action is Create(payload); if a record is found and
its content equals the current IP, its ttl the desired ttl and its proxied
flag the desired proxied flag, the action is NoOp; otherwise the action is
Update with the found record's id and the same payload. -/
theorem C1_address_action (d n : String) (ttl : Nat) (px : Bool) (ip : String)
    (aRecs : List ProviderRecord) (hip : ip ≠ "") :
    desiredAPayload d n ttl px ip =
      { type := "A", name := effectiveName n d, proxied := px, ttl := ttl,
        content := ip } ∧
    (desiredAPayload d n ttl px ip).content ≠ "" ∧
    (check_record aRecs (effectiveName n d) "A" = none →
      (handle_http_record d n ttl px ip aRecs).1 =
        ReconcileAction.create (desiredAPayload d n ttl px ip)) ∧
    (∀ r, check_record aRecs (effectiveName n d) "A" = some r →
      ((r.content = ip ∧ r.ttl = ttl ∧ r.proxied = px) →
        (handle_http_record d n ttl px ip aRecs).1 = ReconcileAction.noop) ∧
      (¬(r.content = ip ∧ r.ttl = ttl ∧ r.proxied = px) →
        (handle_http_record d n ttl px ip aRecs).1 =
          ReconcileAction.update r.id (desiredAPayload d n ttl px ip))) := by
  refine ⟨rfl, hip, ?_, ?_⟩
  · intro h0
    rw [handle_http_record_action, h0]
  · intro r hr
    rw [handle_http_record_action, hr]
    dsimp only
    constructor
    · intro hc
      rw [if_pos hc]
    · intro hc
      rw [if_neg hc]

/-- Witness for C1 at a concrete input: existing record with stale content
"1.2.3.4" and desired IP "5.6.7.8" yields Update with the record's id. -/
theorem C1_address_action_witness :
    (handle_http_record "example.com" "www" 1 true "5.6.7.8" [wwwStale]).1 =
      ReconcileAction.update "rid"
        (desiredAPayload "example.com" "www" 1 true "5.6.7.8") :=
  ((C1_address_action "example.com" "www" 1 true "5.6.7.8" [wwwStale]
      (by decide)).2.2.2 wwwStale (by decide)).2 (by decide)

/-- C2: the constructed SRV payload's data is {name: effectiveName,
service, proto: "_" + lowercase(proto), priority, weight, port,
target: effectiveName}, and when an existing SRV record is found the action
is NoOp exactly when that record's structured data equals this desired
data, else Update with the found record's id. -/
theorem C2_service_action (d n : String) (ttl : Nat) (px : Bool)
    (rd : SrvInput) (ip : String) (aRecs sRecs : List ProviderRecord) :
    desiredSrvData d n rd =
      { name := effectiveName n d, service := rd.service,
        proto := "_" ++ lower rd.proto, priority := rd.priority,
        weight := rd.weight, port := rd.port,
        target := effectiveName n d } ∧
    (∀ r, check_record sRecs (effectiveName n d) "SRV" = some r →
      (((handle_srv_record d n ttl px rd ip aRecs sRecs).1.2 =
          ReconcileAction.noop) ↔ r.data = some (desiredSrvData d n rd)) ∧
      (r.data ≠ some (desiredSrvData d n rd) →
        (handle_srv_record d n ttl px rd ip aRecs sRecs).1.2 =
          ReconcileAction.update r.id
            { type := "SRV", data := desiredSrvData d n rd })) := by
  refine ⟨rfl, ?_⟩
  intro r hr
  rw [srv_snd, hr]
  dsimp only
  by_cases hc : r.data = some (desiredSrvData d n rd) <;> simp [hc]

/-- Witness for C2 at a concrete input: input proto "TCP" is stored as
"_tcp", target equals the effective name, and a found record whose data
equals the desired data yields NoOp. -/
theorem C2_service_action_witness :
    (handle_srv_record "example.com" "svc" 1 false svcInput "9.9.9.9" []
      [svcRecord]).1.2 = ReconcileAction.noop :=
  (((C2_service_action "example.com" "svc" 1 false svcInput "9.9.9.9" []
      [svcRecord]).2 svcRecord (by decide)).1).mpr (by decide)

/-- C3: for a list of provider records of a given type and a target name,
the Service lookup returns the first record whose stored name ends with the
target name, any other type returns the first record whose stored name
equals it exactly, and when nothing matches the result is absent. -/
theorem C3_lookup_rule (records : List ProviderRecord) (name : String)
    (type : String) :
    check_record records name "SRV" =
      records.find? (fun rec => endswith rec.name name) ∧
    (type ≠ "SRV" →
      check_record records name type =
        records.find? (fun rec => rec.name = name)) ∧
    ((∀ rec ∈ records, endswith rec.name name = false) →
      check_record records name "SRV" = none) ∧
    (type ≠ "SRV" → (∀ rec ∈ records, rec.name ≠ name) →
      check_record records name type = none) := by
  refine ⟨check_record_srv_eq_find? records name,
    check_record_other_eq_find? records name type, ?_, ?_⟩
  · intro h
    rw [check_record_srv_eq_find?, List.find?_eq_none]
    intro x hx
    simp [h x hx]
  · intro ht h
    rw [check_record_other_eq_find? records name type ht, List.find?_eq_none]
    intro x hx
    simp [h x hx]

/-- Witness for C3 at a concrete input: a provider record named
"_http._tcp.svc.example.com" matches target "svc.example.com" under the
Service rule but not under the exact-match rule. -/
theorem C3_lookup_rule_witness :
    check_record
      [{ id := "sid", name := "_http._tcp.svc.example.com", content := "",
         ttl := 1, proxied := false, data := none }]
      "svc.example.com" "SRV" =
      some { id := "sid", name := "_http._tcp.svc.example.com",
             content := "", ttl := 1, proxied := false, data := none } ∧
    check_record
      [{ id := "sid", name := "_http._tcp.svc.example.com", content := "",
         ttl := 1, proxied := false, data := none }]
      "svc.example.com" "A" = none := by
  constructor
  · rw [(C3_lookup_rule
      [{ id := "sid", name := "_http._tcp.svc.example.com", content := "",
         ttl := 1, proxied := false, data := none }]
      "svc.example.com" "A").1]
    decide
  · rw [(C3_lookup_rule
      [{ id := "sid", name := "_http._tcp.svc.example.com", content := "",
         ttl := 1, proxied := false, data := none }]
      "svc.example.com" "A").2.1 (by decide)]
    decide


/-- C5: the effective DNS name is the domain name when the desired name is
"@" or empty, and name + "." + domainName otherwise; Address and Service
reconciliation compute this name by the identical rule and use the same
derived name for both the lookup and the payload. -/
theorem C5_effective_name (n d : String) (ttl : Nat) (px : Bool)
    (rd : SrvInput) (ip : String) (aRecs sRecs : List ProviderRecord) :
    (effectiveName "@" d = d ∧ effectiveName "" d = d ∧
      (¬(n = "@" ∨ n = "") → effectiveName n d = n ++ "." ++ d)) ∧
    (handle_http_record d n ttl px ip aRecs).2.head? =
      some (ProviderCall.read "A" (effectiveName n d)) ∧
    (∀ p, (handle_http_record d n ttl px ip aRecs).1 =
        ReconcileAction.create p → p.name = effectiveName n d) ∧
    (∀ i p, (handle_http_record d n ttl px ip aRecs).1 =
        ReconcileAction.update i p → p.name = effectiveName n d) ∧
    ProviderCall.read "SRV" (effectiveName n d) ∈
      (handle_srv_record d n ttl px rd ip aRecs sRecs).2 ∧
    (∀ p, (handle_srv_record d n ttl px rd ip aRecs sRecs).1.2 =
        ReconcileAction.create p →
        p.data.name = effectiveName n d ∧
        p.data.target = effectiveName n d) ∧
    (∀ i p, (handle_srv_record d n ttl px rd ip aRecs sRecs).1.2 =
        ReconcileAction.update i p →
        p.data.name = effectiveName n d ∧
        p.data.target = effectiveName n d) := by
  refine ⟨⟨by simp [effectiveName], by simp [effectiveName], ?_⟩,
    ?_, ?_, ?_, ?_, ?_, ?_⟩
  · intro h
    rw [effectiveName, if_neg h]
  · rw [handle_http_record_trace]
    rfl
  · intro p hp
    rw [handle_http_record_action] at hp
    rcases hx : check_record aRecs (effectiveName n d) "A" with _ | r <;>
      rw [hx] at hp
    · simp only [ReconcileAction.create.injEq] at hp
      subst hp
      rfl
    · by_cases hc : r.content = ip ∧ r.ttl = ttl ∧ r.proxied = px <;>
        simp [hc] at hp
  · intro i p hp
    rw [handle_http_record_action] at hp
    rcases hx : check_record aRecs (effectiveName n d) "A" with _ | r <;>
      rw [hx] at hp
    · simp at hp
    · by_cases hc : r.content = ip ∧ r.ttl = ttl ∧ r.proxied = px <;>
        simp [hc] at hp
      obtain ⟨-, hp⟩ := hp
      subst hp
      rfl
  · rw [handle_srv_record_eq]
    rcases check_record sRecs (effectiveName n d) "SRV" with _ | r
    · simp
    · by_cases hc : r.data = some (desiredSrvData d n rd) <;> simp [hc]
  · intro p hp
    rw [srv_snd] at hp
    rcases hx : check_record sRecs (effectiveName n d) "SRV" with _ | r <;>
      rw [hx] at hp
    · simp only [ReconcileAction.create.injEq] at hp
      subst hp
      exact ⟨rfl, rfl⟩
    · by_cases hc : r.data = some (desiredSrvData d n rd) <;>
        simp [hc] at hp
  · intro i p hp
    rw [srv_snd] at hp
    rcases hx : check_record sRecs (effectiveName n d) "SRV" with _ | r <;>
      rw [hx] at hp
    · simp at hp
    · by_cases hc : r.data = some (desiredSrvData d n rd) <;>
        simp [hc] at hp
      obtain ⟨-, hp⟩ := hp
      subst hp
      exact ⟨rfl, rfl⟩

/-- Witness for C5 at a concrete input: a created Address payload carries
the effective name "www.example.com". -/
theorem C5_effective_name_witness :
    (desiredAPayload "example.com" "www" 1 true "1.2.3.4").name =
      effectiveName "www" "example.com" :=
  (C5_effective_name "www" "example.com" 1 true svcInput "1.2.3.4"
      [] []).2.2.1 (desiredAPayload "example.com" "www" 1 true "1.2.3.4")
    (by decide)

/-- C6: every Service-record reconciliation first performs the full
Address-record reconciliation for the same name, ttl and proxied flag —
its action and its provider calls are exactly those of handle_http_record —
and the whole Address call trace precedes the SRV lookup, unconditionally
(for every SRV lookup result, including an up-to-date SRV record). -/
theorem C6_srv_runs_address_first (d n : String) (ttl : Nat) (px : Bool)
    (rd : SrvInput) (ip : String) (aRecs sRecs : List ProviderRecord) :
    (handle_srv_record d n ttl px rd ip aRecs sRecs).1.1 =
      (handle_http_record d n ttl px ip aRecs).1 ∧
    ∃ tail,
      (handle_srv_record d n ttl px rd ip aRecs sRecs).2 =
        (handle_http_record d n ttl px ip aRecs).2 ++
          (ProviderCall.read "SRV" (effectiveName n d) :: tail) := by
  constructor
  · exact srv_fst d n ttl px rd ip aRecs sRecs
  · rw [handle_srv_record_eq]
    rcases check_record sRecs (effectiveName n d) "SRV" with _ | r
    · exact ⟨[ProviderCall.createRecord "SRV"], rfl⟩
    · by_cases hc : r.data = some (desiredSrvData d n rd)
      · refine ⟨[], ?_⟩
        dsimp only
        rw [if_pos hc]
      · refine ⟨[ProviderCall.updateRecord "SRV" r.id], ?_⟩
        dsimp only
        rw [if_neg hc]

/-- Counterexample to C9 as stated: at a concrete Service record the code
performs two provider reads (the co-located Address lookup and the SRV
lookup), not exactly one. -/
theorem C9_counterexample :
    countReads (handle_srv_record "example.com" "svc" 1 false svcInput
      "1.2.3.4" [] []).2 = 2 ∧ (2 : Nat) ≠ 1 := by
  decide

/-- C9 amended: for every single record the reconciliation decision is a
deterministic function of its inputs (it is a function of the desired spec,
the public IP and the listed provider records); handling an Address record
performs exactly one provider read and at most one write, and handling a
Service record performs exactly two provider reads (one per reconciliation
decision) and at most two writes; no third read or write ever occurs. -/
theorem C9_amended_reads_writes (d n : String) (ttl : Nat) (px : Bool)
    (rd : SrvInput) (ip : String) (aRecs sRecs : List ProviderRecord) :
    countReads (handle_http_record d n ttl px ip aRecs).2 = 1 ∧
    countWrites (handle_http_record d n ttl px ip aRecs).2 ≤ 1 ∧
    countReads (handle_srv_record d n ttl px rd ip aRecs sRecs).2 = 2 ∧
    countWrites (handle_srv_record d n ttl px rd ip aRecs sRecs).2 ≤ 2 := by
  refine ⟨http_countReads d n ttl px ip aRecs,
    http_countWrites d n ttl px ip aRecs, ?_, ?_⟩
  · rw [handle_srv_record_eq]
    have hr0 := http_countReads d n ttl px ip aRecs
    rcases check_record sRecs (effectiveName n d) "SRV" with _ | r
    · dsimp only
      rw [countReads_append, hr0]
      rfl
    · by_cases hc : r.data = some (desiredSrvData d n rd)
      · dsimp only
        rw [if_pos hc, countReads_append, hr0]
        rfl
      · dsimp only
        rw [if_neg hc, countReads_append, hr0]
        rfl
  · rw [handle_srv_record_eq]
    have hw := http_countWrites d n ttl px ip aRecs
    rcases check_record sRecs (effectiveName n d) "SRV" with _ | r
    · dsimp only
      rw [countWrites_append]
      have h1 : countWrites [ProviderCall.read "SRV" (effectiveName n d),
          ProviderCall.createRecord "SRV"] = 1 := rfl
      rw [h1]
      omega
    · by_cases hc : r.data = some (desiredSrvData d n rd)
      · dsimp only
        rw [if_pos hc, countWrites_append]
        have h1 : countWrites [ProviderCall.read "SRV" (effectiveName n d)]
            = 0 := rfl
        rw [h1]
        omega
      · dsimp only
        rw [if_neg hc, countWrites_append]
        have h1 : countWrites [ProviderCall.read "SRV" (effectiveName n d),
            ProviderCall.updateRecord "SRV" r.id] = 1 := rfl
        rw [h1]
        omega

/-- C10: the SRV payload contains only the fields type and data — every
payload the SRV action carries equals the record with exactly those fields —
and the SRV NoOp check compares only the data objects: the SRV action does
not depend on the desired ttl or proxied flag at all, and a found record
whose data equals the desired data yields NoOp for any ttl and proxied. -/
theorem C10_srv_ignores_ttl_proxied (d n : String) (ttl1 ttl2 : Nat)
    (px1 px2 : Bool) (rd : SrvInput) (ip : String)
    (aRecs sRecs : List ProviderRecord) :
    (handle_srv_record d n ttl1 px1 rd ip aRecs sRecs).1.2 =
      (handle_srv_record d n ttl2 px2 rd ip aRecs sRecs).1.2 ∧
    (∀ p, ((handle_srv_record d n ttl1 px1 rd ip aRecs sRecs).1.2 =
          ReconcileAction.create p ∨
        (∃ i, (handle_srv_record d n ttl1 px1 rd ip aRecs sRecs).1.2 =
          ReconcileAction.update i p)) →
        p = { type := "SRV", data := desiredSrvData d n rd }) ∧
    (∀ r, check_record sRecs (effectiveName n d) "SRV" = some r →
      r.data = some (desiredSrvData d n rd) →
      (handle_srv_record d n ttl1 px1 rd ip aRecs sRecs).1.2 =
        ReconcileAction.noop) := by
  refine ⟨?_, ?_, ?_⟩
  · rw [srv_snd, srv_snd]
  · intro p hp
    rw [srv_snd] at hp
    rcases hx : check_record sRecs (effectiveName n d) "SRV" with _ | r <;>
      rw [hx] at hp
    · rcases hp with hp | ⟨i, hp⟩
      · simp only [ReconcileAction.create.injEq] at hp
        exact hp.symm
      · simp at hp
    · by_cases hc : r.data = some (desiredSrvData d n rd)
      · rcases hp with hp | ⟨i, hp⟩ <;> simp [hc] at hp
      · rcases hp with hp | ⟨i, hp⟩ <;> simp [hc] at hp
        obtain ⟨-, hp⟩ := hp
        exact hp.symm
  · intro r hr hdata
    rw [srv_snd, hr]
    dsimp only
    rw [if_pos hdata]

/-- Witness for C10 at a concrete input: with a found record whose data
matches, the SRV action is NoOp for two different ttl/proxied pairs. -/
theorem C10_srv_ignores_ttl_proxied_witness :
    (handle_srv_record "example.com" "svc" 1 false svcInput "9.9.9.9" []
      [svcRecord]).1.2 =
      (handle_srv_record "example.com" "svc" 300 true svcInput "9.9.9.9" []
        [svcRecord]).1.2 ∧
    (handle_srv_record "example.com" "svc" 1 false svcInput "9.9.9.9" []
      [svcRecord]).1.2 = ReconcileAction.noop :=
  ⟨(C10_srv_ignores_ttl_proxied "example.com" "svc" 1 300 false true svcInput
      "9.9.9.9" [] [svcRecord]).1,
   (C10_srv_ignores_ttl_proxied "example.com" "svc" 1 300 false true svcInput
      "9.9.9.9" [] [svcRecord]).2.2 svcRecord (by decide) (by decide)⟩

/-- C7: a configured record whose type tag is missing (or falsy) or
unrecognized makes update_record fail with the unsupported-record-type
error, returning before the handler — and hence before any provider call —
runs; it is never silently skipped. -/
theorem C7_unsupported_type (d : String) (record : RecordConfig)
    (ip : String) (aRecs sRecs : List ProviderRecord)
    (h : record.type.getD "" = "" ∨ record.type.getD "" ∉ HANDLES_keys) :
    ∃ e, update_record d record ip aRecs sRecs =
      Except.error e := by
  rcases h with h0 | hk
  · refine ⟨UnsupportedRecordType.runtimeError
      "Record type is not supported", ?_⟩
    rw [update_record]
    rw [if_pos h0]
  · by_cases h0 : record.type.getD "" = ""
    · refine ⟨UnsupportedRecordType.runtimeError
        "Record type is not supported", ?_⟩
      rw [update_record]
      rw [if_pos h0]
    · have hA : record.type.getD "" ≠ "A" := by
        intro hx
        exact hk (by rw [hx]; decide)
      have hS : record.type.getD "" ≠ "SRV" := by
        intro hx
        exact hk (by rw [hx]; decide)
      refine ⟨UnsupportedRecordType.keyError (record.type.getD ""), ?_⟩
      rw [update_record]
      rw [if_neg h0, if_neg hA, if_neg hS]

/-- Witness for C7 at a concrete input: a record with type "CNAME" fails
with the KeyError-style unsupported-type error. -/
theorem C7_unsupported_type_witness :
    ∃ e, update_record "example.com"
      { name := "www", ttl := none, type := some "CNAME", proxied := none,
        service := "", proto := "", priority := 0, weight := 0, port := 0 }
      "1.2.3.4" [] [] = Except.error e :=
  C7_unsupported_type "example.com"
    { name := "www", ttl := none, type := some "CNAME", proxied := none,
      service := "", proto := "", priority := 0, weight := 0, port := 0 }
    "1.2.3.4" [] [] (by decide)

/-- Counterexample to C8 as stated: in key mode the email value is NOT
ignored when the authentication headers are constructed — a key-mode
client emits it as X-Auth-Email, and two key-mode clients differing only
in email produce different headers. -/
theorem C8_counterexample :
    cloudflare_init ⟨some false, some "alice@example.com", some "k"⟩ =
      Except.ok ⟨false, "alice@example.com", "k"⟩ ∧
    getAuthHeaders ⟨false, "alice@example.com", "k"⟩ [] =
      [("X-Auth-Email", "alice@example.com"), ("X-Auth-Key", "k")] ∧
    getAuthHeaders ⟨false, "alice@example.com", "k"⟩ [] ≠
      getAuthHeaders ⟨false, "bob@example.com", "k"⟩ [] :=
  ⟨rfl, by decide, by decide⟩

/-- C8 amended: client construction fails with AuthenticationConfigError
exactly when api-auth is missing or empty, or when token mode is selected
and email is missing or empty (token mode requires api-auth and email; key
mode requires api-auth only); and it is in token mode that the email value
is ignored when the authentication headers are constructed, while key-mode
headers carry the email as X-Auth-Email. -/
theorem C8_amended_auth (auth : AuthConfig) (e1 e2 k : String)
    (hs : List (String × String)) :
    ((∃ err, cloudflare_init auth = Except.error err) ↔
      (auth.api_auth.getD "" = "" ∨
        (auth.use_token.getD false = true ∧ auth.email.getD "" = ""))) ∧
    getAuthHeaders ⟨true, e1, k⟩ hs = getAuthHeaders ⟨true, e2, k⟩ hs ∧
    getAuthHeaders ⟨false, e1, k⟩ hs =
      ("X-Auth-Email", e1) :: ("X-Auth-Key", k) :: hs := by
  refine ⟨?_, rfl, rfl⟩
  constructor
  · rintro ⟨err, herr⟩
    simp only [cloudflare_init] at herr
    split at herr
    · next hcond => exact hcond
    · next => cases herr
  · intro hcond
    refine ⟨AuthenticationConfigError.mk
      "Please check your authentication configuration and correct it!", ?_⟩
    simp only [cloudflare_init]
    rw [if_pos hcond]

/-- C4: idempotence — for every desired record and public IP unchanged
between two consecutive runs, assuming the provider faithfully stores the
payload of the first run's Create or Update (and, for SRV, stores it under
a name ending in the effective name, as the provider's
service/proto-prefixed naming does), the second run's reconciliation
action is NoOp — for an Address record its action, and for a Service
record both its Address component and its SRV component — and the second
run performs no createRecord or updateRecord call. -/
theorem C4_idempotence (d n : String) (ttl : Nat) (px : Bool)
    (rd : SrvInput) (ip : String) (aRecs sRecs : List ProviderRecord)
    (new_idA new_idS stored_name : String)
    (h : endswith stored_name (effectiveName n d) = true) :
    ((handle_http_record d n ttl px ip
        ((faithfulStoreA new_idA (check_record aRecs (effectiveName n d) "A")
          (handle_http_record d n ttl px ip aRecs).1).toList)).1 =
      ReconcileAction.noop ∧
     countWrites (handle_http_record d n ttl px ip
        ((faithfulStoreA new_idA (check_record aRecs (effectiveName n d) "A")
          (handle_http_record d n ttl px ip aRecs).1).toList)).2 = 0) ∧
    ((handle_srv_record d n ttl px rd ip
        ((faithfulStoreA new_idA (check_record aRecs (effectiveName n d) "A")
          (handle_srv_record d n ttl px rd ip aRecs sRecs).1.1).toList)
        ((faithfulStoreSrv stored_name new_idS
          (check_record sRecs (effectiveName n d) "SRV")
          (handle_srv_record d n ttl px rd ip aRecs sRecs).1.2).toList)).1.1 =
      ReconcileAction.noop ∧
     (handle_srv_record d n ttl px rd ip
        ((faithfulStoreA new_idA (check_record aRecs (effectiveName n d) "A")
          (handle_srv_record d n ttl px rd ip aRecs sRecs).1.1).toList)
        ((faithfulStoreSrv stored_name new_idS
          (check_record sRecs (effectiveName n d) "SRV")
          (handle_srv_record d n ttl px rd ip aRecs sRecs).1.2).toList)).1.2 =
      ReconcileAction.noop ∧
     countWrites (handle_srv_record d n ttl px rd ip
        ((faithfulStoreA new_idA (check_record aRecs (effectiveName n d) "A")
          (handle_srv_record d n ttl px rd ip aRecs sRecs).1.1).toList)
        ((faithfulStoreSrv stored_name new_idS
          (check_record sRecs (effectiveName n d) "SRV")
          (handle_srv_record d n ttl px rd ip aRecs sRecs).1.2).toList)).2 =
      0) := by
  have hhttp := http_second_run_noop d n ttl px ip aRecs new_idA
  have hsrv := srv_second_run_noop d n ttl px rd ip aRecs sRecs new_idA
    new_idS stored_name h
  exact ⟨⟨hhttp, http_noop_countWrites _ _ _ _ _ _ hhttp⟩,
    hsrv.1, hsrv.2,
    srv_noop_countWrites _ _ _ _ _ _ _ _ hsrv.1 hsrv.2⟩

/-- Witness for C4 at a concrete input: a first run that creates the
records leaves a second run that does nothing. -/
theorem C4_idempotence_witness :
    endswith "_http._tcp.svc.example.com"
      (effectiveName "svc" "example.com") = true ∧
    (handle_http_record "example.com" "svc" 1 true "1.2.3.4"
      ((faithfulStoreA "na"
        (check_record [] (effectiveName "svc" "example.com") "A")
        (handle_http_record "example.com" "svc" 1 true "1.2.3.4"
          []).1).toList)).1 = ReconcileAction.noop :=
  ⟨by decide,
   ((C4_idempotence "example.com" "svc" 1 true svcInput "1.2.3.4" [] []
      "na" "ns" "_http._tcp.svc.example.com" (by decide)).1).1⟩
